import Mathlib

/-!
Shallow embedding of the Sherlock business-profile search pipeline.

Strings are modelled as `List Char`.  `str.lower` and `str.isalnum` are
modelled on the ASCII range (every concrete input below is ASCII).  CPython
materialises a `set` in a hash-dependent iteration order; here a set that is
turned into a list is modelled by `dedupFirst`, which keeps the first
occurrence of each element in insertion order.  No theorem below depends on
which order ties are enumerated in.  Fractional scores (the Python scorer
uses a `-0.5 * len` term) are modelled by doubling every score contribution,
which preserves all comparisons; monetary-style fields (`confidence`) are
rationals.  Timestamps are integers (seconds); 90 days = 7776000 seconds.
-/

set_option maxRecDepth 4000

/-- Ascii model of Python `str.lower`. -/
def pyLower (s : List Char) : List Char := s.map Char.toLower

/-- Character class of the regex `[a-zA-Z0-9]`, also Python `str.isalnum`
restricted to ASCII. -/
def isAsciiAlnum (c : Char) : Bool := c.isAlpha || c.isDigit

/-- Python substring test `pat in s`. -/
def isSubstr (pat s : List Char) : Bool := s.tails.any (fun t => pat.isPrefixOf t)

/-- Materialisation of a Python set built by successive insertions: keep the
first occurrence of each element (auxiliary, carries the seen-set). -/
def dedupFirstAux {α : Type} [DecidableEq α] : List α → List α → List α
  | [], _ => []
  | a :: l, seen => if a ∈ seen then dedupFirstAux l seen else a :: dedupFirstAux l (a :: seen)

/-- Materialisation of a Python set built by successive insertions. -/
def dedupFirst {α : Type} [DecidableEq α] (l : List α) : List α := dedupFirstAux l []

/-- Python `s.replace(pat, '')` (delete every non-overlapping occurrence,
scanning left to right); fuel-driven so that it is structural. -/
def pyReplaceDelAux (pat : List Char) : Nat → List Char → List Char
  | 0, s => s
  | fuel + 1, s =>
    if pat ≠ [] ∧ pat.isPrefixOf s then pyReplaceDelAux pat fuel (s.drop pat.length)
    else
      match s with
      | [] => []
      | c :: rest => c :: pyReplaceDelAux pat fuel rest

/-- Python `s.replace(pat, '')`. -/
def pyReplaceDel (pat s : List Char) : List Char := pyReplaceDelAux pat s.length s

/-- Python `s.strip()`. -/
def pyStrip (s : List Char) : List Char :=
  ((s.dropWhile Char.isWhitespace).reverse.dropWhile Char.isWhitespace).reverse

/-- Python `s.split()` (split on whitespace runs, no empty parts);
auxiliary with the current word accumulated in reverse. -/
def pySplitAux : List Char → List Char → List (List Char)
  | [], cur => if cur = [] then [] else [cur.reverse]
  | c :: rest, cur =>
    if c.isWhitespace then
      if cur = [] then pySplitAux rest [] else cur.reverse :: pySplitAux rest []
    else pySplitAux rest (c :: cur)

/-- Python `s.split()` (split on whitespace runs, no empty parts). -/
def pySplit (s : List Char) : List (List Char) := pySplitAux s []

/-- Python `s.split(sep)` (keeps empty parts); fuel-driven so that it is
structural. -/
def pySplitOnAux (sep : List Char) : Nat → List Char → List (List Char)
  | 0, s => [s]
  | fuel + 1, s =>
    if sep ≠ [] ∧ sep.isPrefixOf s then [] :: pySplitOnAux sep fuel (s.drop sep.length)
    else
      match s with
      | [] => [[]]
      | c :: rest =>
        match pySplitOnAux sep fuel rest with
        | [] => [[c]]
        | p :: ps => (c :: p) :: ps

/-- Python `s.split(sep)` (keeps empty parts). -/
def pySplitOn (sep s : List Char) : List (List Char) := pySplitOnAux sep s.length s

/-- Python `s.replace(' ', sep)`. -/
def replaceSpace (sep : List Char) (s : List Char) : List Char :=
  s.flatMap (fun c => if c = ' ' then sep else [c])

namespace SB
/-! Embedding of `src/python/sherlock_business_search.py`
(class `SherlockBusinessSearch`). -/

/-- `clean_name` / `original_clean` / `business_clean`:
`re.sub(r'[^a-zA-Z0-9]', '', business_name.lower())`. -/
def clean_name (business_name : List Char) : List Char :=
  (pyLower business_name).filter isAsciiAlnum

/-- `business_affixes` of `generate_business_usernames`. -/
def business_affixes : List (List Char) :=
  ["official", "real", "team", "hq", "inc", "corp", "company"].map String.data

/-- One entry of `base_variations`: lower-case, replace spaces with `sep`,
then `re.sub(r'[^a-zA-Z0-9._-]', '', variation)`. -/
def sepVariant (sep : List Char) (business_name : List Char) : List Char :=
  (replaceSpace sep (pyLower business_name)).filter
    (fun c => isAsciiAlnum c || c = '.' || c = '_' || c = '-')

/-- `username_score`, with every contribution doubled so that the
`-0.5 * len(username)` term stays integral; doubling preserves all
comparisons between scores. -/
def username_score2 (username original_name : List Char) : Int :=
  let original_clean := clean_name original_name
  (if username = original_clean then 200 else 0) +
  (if username.length = original_clean.length then 40 else 0) +
  (if isSubstr original_clean username then 100 else 0) -
  (username.length : Int) +
  (if (["official", "real", "team"].map String.data).all
      (fun affix => !(isSubstr affix username)) then 20 else 0)

/-- The insertion sequence of the `usernames` set in
`generate_business_usernames`: `clean_name`, then the non-empty separator
variations, then the affix combinations. -/
def candidate_pool (business_name : List Char) : List (List Char) :=
  clean_name business_name ::
    ([sepVariant [] business_name, sepVariant ['_'] business_name,
      sepVariant ['.'] business_name, sepVariant ['-'] business_name].filter (· ≠ [])) ++
    business_affixes.flatMap (fun affix =>
      [clean_name business_name ++ affix,
       affix ++ clean_name business_name,
       clean_name business_name ++ '_' :: affix,
       affix ++ '_' :: clean_name business_name])

/-- Sort key order used by `sorted(valid_usernames, key=...)`: Python's
`sorted` without `reverse=True` is an ascending stable sort. -/
def byAscendingScore (business_name : List Char) (a b : List Char) : Prop :=
  username_score2 a business_name ≤ username_score2 b business_name

instance (business_name : List Char) : DecidableRel (byAscendingScore business_name) :=
  fun a b => Int.decLe _ _

/-- `generate_business_usernames`: build the set of variations, keep lengths
in `[3, 30]`, `sorted(..., key=username_score)` (ascending, stable), `[:10]`. -/
def generate_business_usernames (business_name : List Char) : List (List Char) :=
  (List.insertionSort (byAscendingScore business_name)
    ((dedupFirst (candidate_pool business_name)).filter
      (fun u => 3 ≤ u.length ∧ u.length ≤ 30))).take 10

/-- `platform_priority` dict of `calculate_relevance` (`.get(platform, 0)`). -/
def platform_priority (platform : List Char) : Int :=
  if platform = "linkedin".data then 30
  else if platform = "instagram".data then 25
  else if platform = "facebook".data then 20
  else if platform = "twitter".data then 15
  else if platform = "youtube".data then 10
  else if platform = "tiktok".data then 5
  else 0

/-- `calculate_relevance` (`business_clean` is `clean_name business_name`,
inlined here). -/
def calculate_relevance (username business_name platform : List Char) : Int :=
  max 0
    ((if username = clean_name business_name then (100 : Int)
      else if isSubstr (clean_name business_name) username then 70
      else if (pySplit (clean_name business_name)).any
          (fun word => isSubstr word username) then 40
      else 0) +
     platform_priority platform +
     (if 20 < username.length then -10 else 0))

/-- One entry of the per-platform dict a probe returns (`url`, `verified`;
the constant `source`/`platform` duplicates are dropped). -/
structure ProfileData where
  url : List Char
  verified : Bool
deriving DecidableEq

/-- A processed profile of `process_results`.  The `id` field (built from a
run-randomised Python string hash), and the constant `source` /
`search_method` fields are not modelled. -/
structure Profile where
  name : List Char
  platform : List Char
  profile_url : List Char
  username : List Char
  verified : Bool
  relevance_score : Int
  confidence : ℚ
deriving DecidableEq

/-- The record built in the body of the `process_results` loop. -/
def mkProfile (business_name username platform : List Char) (pd : ProfileData) : Profile :=
  { name := business_name, platform := platform, profile_url := pd.url,
    username := username, verified := pd.verified,
    relevance_score := calculate_relevance username business_name platform,
    confidence := min (9/10 : ℚ) ((calculate_relevance username business_name platform : ℚ) / 100) }

/-- The dedup-by-`seen_urls` loop of `process_results`. -/
def materialize (business_name : List Char) :
    List (List Char × List Char × ProfileData) → List (List Char) → List Profile
  | [], _ => []
  | (username, platform, pd) :: rest, seen_urls =>
    if pd.url ∈ seen_urls then materialize business_name rest seen_urls
    else
      mkProfile business_name username platform pd ::
        materialize business_name rest (pd.url :: seen_urls)

/-- Comparison used by `processed.sort(key=..., reverse=True)`: a stable
descending sort by `relevance_score`. -/
def byDescendingScore (a b : Profile) : Prop := b.relevance_score ≤ a.relevance_score

instance : DecidableRel byDescendingScore := fun a b => Int.decLe _ _

instance : IsTotal Profile byDescendingScore := ⟨fun a b => le_total b.relevance_score a.relevance_score⟩

instance : IsTrans Profile byDescendingScore := ⟨fun _ _ _ h1 h2 => le_trans h2 h1⟩

/-- The iteration order of the two nested dict loops of `process_results`. -/
def flatten_results (all_results : List (List Char × List (List Char × ProfileData))) :
    List (List Char × List Char × ProfileData) :=
  all_results.flatMap (fun ur => ur.2.map (fun pp => (ur.1, pp.1, pp.2)))

/-- `process_results`: dedup by seen URL, stable sort descending by
relevance, `[:20]`. -/
def process_results (all_results : List (List Char × List (List Char × ProfileData)))
    (business_name : List Char) : List Profile :=
  (List.insertionSort byDescendingScore
    (materialize business_name (flatten_results all_results) [])).take 20

/-- Outcome of one `sherlock_search` subprocess invocation.  Output-file /
stdout parsing and the per-URL HTTP existence check are external I/O; the
probe is modelled by the per-platform dict it produces. -/
inductive ProbeOutcome : Type
  | found (profiles : List (List Char × ProfileData))
  | timedOut
  | failed

/-- `sherlock_search`: both `subprocess.TimeoutExpired` and any other
exception are caught and turned into the empty dict `{}`. -/
def sherlock_search (probe : List Char → ProbeOutcome) (username : List Char) :
    List (List Char × ProfileData) :=
  match probe username with
  | .found profiles => profiles
  | .timedOut => []
  | .failed => []

/-- The result dict of `search_business_profiles` (success path). -/
structure SearchResult where
  success : Bool
  business_name : List Char
  searched_usernames : List (List Char)
  total_profiles_found : Nat
  profiles : List Profile

/-- The `for username in usernames` loop of `search_business_profiles`:
only non-empty probe results are recorded in `all_results`. -/
def search_loop (probe : List Char → ProbeOutcome)
    (acc : List (List Char × List (List Char × ProfileData))) :
    List (List Char) → List (List Char × List (List Char × ProfileData))
  | [] => acc
  | username :: rest =>
    search_loop probe
      (if sherlock_search probe username ≠ [] then
        acc ++ [(username, sherlock_search probe username)]
      else acc) rest

/-- `search_business_profiles`. -/
def search_business_profiles (probe : List Char → ProbeOutcome) (business_name : List Char) :
    SearchResult :=
  let processed :=
    process_results (search_loop probe [] (generate_business_usernames business_name))
      business_name
  { success := true, business_name := business_name,
    searched_usernames := generate_business_usernames business_name,
    total_profiles_found := processed.length, profiles := processed }

end SB

namespace NF
/-! Embedding of `src/netlify/functions/sherlock-search/main.py`. -/

/-- `business_words` of `generate_business_usernames`. -/
def business_words : List (List Char) :=
  ["inc", "llc", "ltd", "corp", "company", "co", "group", "agency"].map String.data

/-- The `clean_name` computed by `generate_business_usernames`:
`business_name.lower().strip()`, then for each business word
`clean_name = clean_name.replace(word, '').strip()` (note: `replace`
removes every substring occurrence, not only whole words). -/
def clean_name (business_name : List Char) : List Char :=
  business_words.foldl (fun s word => pyStrip (pyReplaceDel word s))
    (pyStrip (pyLower business_name))

/-- The `base` of `generate_business_usernames`:
`''.join(c for c in clean_name if c.isalnum())`. -/
def base (business_name : List Char) : List Char :=
  (clean_name business_name).filter isAsciiAlnum

/-- The `usernames` list literal of `generate_business_usernames`. -/
def raw_usernames (business_name : List Char) : List (List Char) :=
  [base business_name,
   replaceSpace [] (clean_name business_name),
   replaceSpace ['_'] (clean_name business_name),
   replaceSpace ['-'] (clean_name business_name),
   base business_name ++ "official".data,
   "official".data ++ base business_name,
   base business_name ++ "inc".data,
   base business_name ++ "co".data]

/-- `generate_business_usernames`:
`list(set(u for u in usernames if u and len(u) >= 2))[:5]`. -/
def generate_business_usernames (business_name : List Char) : List (List Char) :=
  (dedupFirst ((raw_usernames business_name).filter (fun u => 2 ≤ u.length))).take 5

/-- A profile dict of this function (fields as in the source literals). -/
structure Profile where
  id : List Char
  name : List Char
  platform : List Char
  profile_url : List Char
  username : List Char
  verified : Bool
  confidence : ℚ
  relevance_score : Int
deriving DecidableEq

/-- `parse_sherlock_output`: keep stripped lines containing `http` and
`[+]`, split on `': '`, build a profile from the first two parts. -/
def parse_sherlock_output (output username business_name : List Char) : List Profile :=
  (pySplitOn ['\n'] output).flatMap (fun rawLine =>
    let line := pyStrip rawLine
    if line ≠ [] ∧ isSubstr "http".data line ∧ isSubstr "[+]".data line then
      if 2 ≤ (pySplitOn ": ".data line).length then
        [{ id := pyLower (pyStrip (pyReplaceDel "[+]".data (pySplitOn ": ".data line).headI)) ++
             '_' :: username,
           name := business_name,
           platform := pyLower (pyStrip (pyReplaceDel "[+]".data (pySplitOn ": ".data line).headI)),
           profile_url := pyStrip ((pySplitOn ": ".data line).getD 1 []),
           username := username, verified := false,
           confidence := 9/10, relevance_score := 85 }]
      else []
    else [])

/-- The `platforms` dict literal of `generate_fallback_profiles`, in
insertion order. -/
def fallback_platforms (username : List Char) : List (List Char × List Char) :=
  [("instagram".data, "https://instagram.com/".data ++ username),
   ("facebook".data, "https://facebook.com/".data ++ username),
   ("linkedin".data, "https://www.linkedin.com/company/".data ++ username),
   ("twitter".data, "https://x.com/".data ++ username),
   ("tiktok".data, "https://www.tiktok.com/@".data ++ username),
   ("youtube".data, "https://www.youtube.com/@".data ++ username)]

/-- `generate_fallback_profiles`: deterministic degraded-mode profiles with
`verified = False`, `confidence = 0.7`, `relevance_score = 75`. -/
def generate_fallback_profiles (username business_name : List Char) : List Profile :=
  (fallback_platforms username).map (fun pu =>
    { id := pu.1 ++ '_' :: username, name := business_name, platform := pu.1,
      profile_url := pu.2, username := username, verified := false,
      confidence := 7/10, relevance_score := 75 })

/-- Outcome of the `subprocess.run(['python3', '-m', 'sherlock', ...])`
call for one username: it ran (with a return code and stdout), it timed
out (`subprocess.TimeoutExpired`), or the tool was absent
(`FileNotFoundError`). -/
inductive ProbeOutcome : Type
  | ran (returncode : Int) (stdout : List Char)
  | timedOut
  | toolMissing

/-- The result dict of `execute_sherlock_search`. -/
structure SearchOutput where
  profiles : List Profile
  total_profiles_found : Nat
  searched_usernames : List (List Char)

/-- The `for username in usernames` loop of `execute_sherlock_search`:
a zero return code appends the parsed profiles, a non-zero return code
appends nothing, and timeout / tool-not-found append the fallback
profiles; the loop itself never raises. -/
def sherlock_loop (probe : List Char → ProbeOutcome) (business_name : List Char)
    (acc : List Profile) : List (List Char) → List Profile
  | [] => acc
  | username :: rest =>
    match probe username with
    | .ran rc out =>
      sherlock_loop probe business_name
        (if rc = 0 then acc ++ parse_sherlock_output out username business_name else acc) rest
    | .timedOut =>
      sherlock_loop probe business_name
        (acc ++ generate_fallback_profiles username business_name) rest
    | .toolMissing =>
      sherlock_loop probe business_name
        (acc ++ generate_fallback_profiles username business_name) rest

/-- `execute_sherlock_search` (its outer `try` cannot fail in this model;
every failure of the subprocess is already handled per username). -/
def execute_sherlock_search (probe : List Char → ProbeOutcome) (business_name : List Char) :
    SearchOutput :=
  { profiles :=
      (sherlock_loop probe business_name [] (generate_business_usernames business_name)).take 20,
    total_profiles_found :=
      (sherlock_loop probe business_name [] (generate_business_usernames business_name)).length,
    searched_usernames := generate_business_usernames business_name }

/-- What one username contributes to `all_profiles`, by case on its probe
outcome. -/
def username_contribution (probe : List Char → ProbeOutcome)
    (username business_name : List Char) : List Profile :=
  match probe username with
  | .ran rc out => if rc = 0 then parse_sherlock_output out username business_name else []
  | .timedOut => generate_fallback_profiles username business_name
  | .toolMissing => generate_fallback_profiles username business_name

/-- `generate_query_hash` builds `f"{query.lower().strip()}_{platform}"`
and md5-hashes it; the digest step is not modelled (the key is modelled by
the hash input, which determines the digest). -/
def generate_query_hash (query platform : List Char) : List Char :=
  pyLower (pyStrip query) ++ '_' :: platform

/-- A row of the `api_cache` table (`response_data` is modelled by the
`results` list it carries). -/
structure CacheRecord where
  id : Nat
  query_hash : List Char
  query_text : List Char
  platform : List Char
  results : List Profile
  expires_at : Int
  hit_count : Nat
  last_accessed_at : Int
deriving DecidableEq

/-- The dict returned by `get_cached_result` on a hit. -/
structure CacheHit where
  success : Bool
  results : List Profile
  query : List Char
  platform : List Char
  hitCount : Nat
deriving DecidableEq

/-- The row filter of the cache lookup:
`.eq('query_hash', query_hash).eq('platform', platform)`. -/
def cacheMatch (qh pl : List Char) (r : CacheRecord) : Bool :=
  decide (r.query_hash = qh ∧ r.platform = pl)

/-- A Python exception raised inside the cache helpers. -/
inductive PyError : Type
  | attributeError

/-- The `result.data` access of `get_cached_result`.  The source builds the
chain `supabase.table('api_cache').select('*').eq('query_hash', qh)
.eq('platform', platform).single()` but never calls `.execute()` on it, so
`result` is the unexecuted single-row request builder; a request builder
has no `data` attribute, and the access raises `AttributeError` for every
store and key — the row filter `cacheMatch` would only be applied if the
request were executed. -/
def single_builder_data (_db : List CacheRecord) (_qh _platform : List Char) :
    Except PyError CacheRecord :=
  .error .attributeError

/-- `get_cached_result`: the try body raises `AttributeError` at
`result.data` (the select builder is never executed, see
`single_builder_data`), the blanket `except` swallows the error, and the
function falls through to `return None` leaving the store untouched.  The
hit path of the source — return the matched row with `hit_count + 1` and
bump the stored row, consulting no field beyond the match keys (in
particular never `expires_at`) — is kept below as it is written, but it is
dead code: no cache read ever returns a hit. -/
def get_cached_result (db : List CacheRecord) (now : Int) (query platform : List Char) :
    Option CacheHit × List CacheRecord :=
  match single_builder_data db (generate_query_hash query platform) platform with
  | .ok r =>
    (some { success := true, results := r.results, query := r.query_text,
            platform := r.platform, hitCount := r.hit_count + 1 },
     db.map (fun x =>
       if x.id = r.id then { x with hit_count := x.hit_count + 1, last_accessed_at := now }
       else x))
  | .error _ => (none, db)

/-- `cache_result`: insert a fresh row with
`expires_at = now + timedelta(days=90)` and `hit_count = 1`. -/
def cache_result (db : List CacheRecord) (now : Int) (newId : Nat)
    (query platform : List Char) (results : List Profile) : List CacheRecord :=
  db ++ [{ id := newId, query_hash := generate_query_hash query platform, query_text := query,
           platform := platform, results := results, expires_at := now + 7776000,
           hit_count := 1, last_accessed_at := now }]

end NF

/-- Modelled from the spec: the CanonicalToken the specification describes —
the business name lowercased, with the business-entity words (inc, llc, ltd,
corp, company, co, group, agency) stripped as words, and every character
outside `[a-z0-9]` removed.  Used only to compare the specified normalizer
with the implemented ones. -/
def specCanonicalToken (business_name : List Char) : List Char :=
  (((pySplit (pyLower business_name)).filter
      (fun w => decide (w ∉ NF.business_words))).flatMap id).filter isAsciiAlnum

/-- Two probe result sets whose profile URLs differ only in the letter case
of the domain: hits for the username `x` and the username `y`, both on
`instagram`. -/
def twoCaseHits : List (List Char × List (List Char × SB.ProfileData)) :=
  [("x".data, [("instagram".data, { url := "https://instagram.com/x".data, verified := true })]),
   ("y".data, [("instagram".data, { url := "https://INSTAGRAM.com/x".data, verified := true })])]

/-- A stored cache row for the query `Acme` whose `expires_at` timestamp has
long passed. -/
def sampleCacheRecord : NF.CacheRecord :=
  { id := 7, query_hash := "acme_sherlock_osint".data, query_text := "Acme".data,
    platform := "sherlock_osint".data, results := [], expires_at := 0,
    hit_count := 3, last_accessed_at := 0 }

/-! ## Helper lemmas -/

theorem mem_of_mem_dedupFirstAux {α : Type} [DecidableEq α] :
    ∀ (l seen : List α) (a : α), a ∈ dedupFirstAux l seen → a ∈ l := by
  intro l
  induction l with
  | nil => intro seen a h; simp [dedupFirstAux] at h
  | cons b t ih =>
    intro seen a h
    by_cases hb : b ∈ seen
    · simp only [dedupFirstAux, if_pos hb] at h
      exact List.mem_cons_of_mem _ (ih _ _ h)
    · simp only [dedupFirstAux, if_neg hb, List.mem_cons] at h
      rcases h with rfl | h
      · exact List.mem_cons_self _ _
      · exact List.mem_cons_of_mem _ (ih _ _ h)

theorem dedupFirstAux_nodup {α : Type} [DecidableEq α] :
    ∀ (l seen : List α), (dedupFirstAux l seen).Nodup ∧ ∀ a ∈ dedupFirstAux l seen, a ∉ seen := by
  intro l
  induction l with
  | nil => intro seen; simp [dedupFirstAux]
  | cons b t ih =>
    intro seen
    by_cases hb : b ∈ seen
    · simpa only [dedupFirstAux, if_pos hb] using ih seen
    · simp only [dedupFirstAux, if_neg hb]
      obtain ⟨hnd, hni⟩ := ih (b :: seen)
      refine ⟨List.nodup_cons.mpr ⟨fun hmem => hni b hmem (List.mem_cons_self _ _), hnd⟩, ?_⟩
      intro a ha
      rw [List.mem_cons] at ha
      rcases ha with rfl | ha
      · exact hb
      · exact fun hseen => hni a ha (List.mem_cons_of_mem _ hseen)

theorem dedupFirst_nodup {α : Type} [DecidableEq α] (l : List α) : (dedupFirst l).Nodup :=
  (dedupFirstAux_nodup l []).1

theorem mem_of_mem_dedupFirst {α : Type} [DecidableEq α] {l : List α} {a : α}
    (h : a ∈ dedupFirst l) : a ∈ l :=
  mem_of_mem_dedupFirstAux l [] a h

theorem materialize_url_nodup (business_name : List Char) :
    ∀ (l : List (List Char × List Char × SB.ProfileData)) (seen : List (List Char)),
      ((SB.materialize business_name l seen).map (fun p => p.profile_url)).Nodup ∧
      ∀ p ∈ SB.materialize business_name l seen, p.profile_url ∉ seen := by
  intro l
  induction l with
  | nil => intro seen; simp [SB.materialize]
  | cons hd t ih =>
    intro seen
    obtain ⟨username, platform, pd⟩ := hd
    by_cases hmem : pd.url ∈ seen
    · simpa only [SB.materialize, if_pos hmem] using ih seen
    · simp only [SB.materialize, if_neg hmem]
      obtain ⟨hnd, hni⟩ := ih (pd.url :: seen)
      constructor
      · rw [List.map_cons, List.nodup_cons]
        refine ⟨fun hin => ?_, hnd⟩
        rw [List.mem_map] at hin
        obtain ⟨q, hq, hqe⟩ := hin
        exact hni q hq (by rw [hqe]; exact List.mem_cons_self _ _)
      · intro p hp
        rw [List.mem_cons] at hp
        rcases hp with rfl | hp
        · exact hmem
        · exact fun hseen => hni p hp (List.mem_cons_of_mem _ hseen)

theorem process_results_url_nodup
    (all_results : List (List Char × List (List Char × SB.ProfileData)))
    (business_name : List Char) :
    ((SB.process_results all_results business_name).map (fun p => p.profile_url)).Nodup := by
  unfold SB.process_results
  have h0 := (materialize_url_nodup business_name (SB.flatten_results all_results) []).1
  have hperm :
      (List.insertionSort SB.byDescendingScore
        (SB.materialize business_name (SB.flatten_results all_results) [])).Perm
      (SB.materialize business_name (SB.flatten_results all_results) []) :=
    List.perm_insertionSort _ _
  have hsort :
      ((List.insertionSort SB.byDescendingScore
        (SB.materialize business_name (SB.flatten_results all_results) [])).map
          (fun p => p.profile_url)).Nodup :=
    ((hperm.map _).symm).nodup h0
  rw [List.map_take]
  exact hsort.sublist (List.take_sublist _ _)

theorem sherlock_loop_eq (probe : List Char → NF.ProbeOutcome) (business_name : List Char) :
    ∀ (usernames : List (List Char)) (acc : List NF.Profile),
      NF.sherlock_loop probe business_name acc usernames =
        acc ++ usernames.flatMap (fun u => NF.username_contribution probe u business_name) := by
  intro usernames
  induction usernames with
  | nil => intro acc; simp [NF.sherlock_loop]
  | cons u rest ih =>
    intro acc
    cases hpu : probe u with
    | ran rc out =>
      by_cases hrc : rc = 0 <;>
        simp [NF.sherlock_loop, NF.username_contribution, hpu, hrc, ih, List.append_assoc]
    | timedOut =>
      simp [NF.sherlock_loop, NF.username_contribution, hpu, ih, List.append_assoc]
    | toolMissing =>
      simp [NF.sherlock_loop, NF.username_contribution, hpu, ih, List.append_assoc]

theorem search_loop_eq (probe : List Char → SB.ProbeOutcome) :
    ∀ (usernames : List (List Char))
      (acc : List (List Char × List (List Char × SB.ProfileData))),
      SB.search_loop probe acc usernames =
        acc ++ usernames.flatMap (fun u =>
          if SB.sherlock_search probe u ≠ [] then [(u, SB.sherlock_search probe u)] else []) := by
  intro usernames
  induction usernames with
  | nil => intro acc; simp [SB.search_loop]
  | cons u rest ih =>
    intro acc
    by_cases hr : SB.sherlock_search probe u ≠ [] <;>
      simp [SB.search_loop, hr, ih, List.append_assoc]

/-! ## Claim theorems -/

/-- Claim C1 (code bug in the source): on input `"Acme Inc"` the Python
generator returns the ten LOWEST-scoring candidates in ascending score
order — `sorted(valid_usernames, key=...)` is missing `reverse=True` — so
the returned (doubled) scores are `[12,12,12,84,84,85,85,88,88,88]`,
`"acme"` is never generated (this generator strips no business words), and
the top-scoring candidate `"acmeinc"` (doubled score 353) is cut off
entirely; the claim (and the code's own comments, "top 10 most likely",
"higher = more likely") require descending order with the exact-match
candidate ranked first. -/
theorem c1_generator_ascending_code_bug :
    (SB.generate_business_usernames "Acme Inc".data).map
        (fun u => SB.username_score2 u "Acme Inc".data) =
      [12, 12, 12, 84, 84, 85, 85, 88, 88, 88] ∧
    "acme".data ∉ SB.generate_business_usernames "Acme Inc".data ∧
    "acmeinc".data ∉ SB.generate_business_usernames "Acme Inc".data ∧
    SB.username_score2 "acmeinc".data "Acme Inc".data = 353 :=
  ⟨by decide, by decide, by decide, by decide⟩

/-- Claim C2 counterexample: with the prober unavailable (tool not found)
for every probed username, the query `"test company"` yields 20 profiles
(five probed usernames × six fallback platforms = 30, truncated to 20),
not exactly six. -/
theorem c2_fallback_count_counterexample :
    (NF.execute_sherlock_search (fun _ => NF.ProbeOutcome.toolMissing)
        "test company".data).profiles.length = 20 ∧
    (NF.execute_sherlock_search (fun _ => NF.ProbeOutcome.toolMissing)
        "test company".data).profiles.length ≠ 6 :=
  ⟨by decide, by decide⟩

/-- Claim C2 (amended): for the query `"test company"` with the prober
unavailable for every probed username, the search probes five usernames,
generates the six fallback platform profiles for each (30 in total,
reported in `total_profiles_found`), returns the first 20, and every
returned profile has confidence 0.7, relevance score 75 and
`verified = false`. -/
theorem c2_fallback_search_amended :
    (NF.execute_sherlock_search (fun _ => NF.ProbeOutcome.toolMissing)
        "test company".data).profiles.length = 20 ∧
    (NF.execute_sherlock_search (fun _ => NF.ProbeOutcome.toolMissing)
        "test company".data).total_profiles_found = 30 ∧
    (NF.execute_sherlock_search (fun _ => NF.ProbeOutcome.toolMissing)
        "test company".data).searched_usernames.length = 5 ∧
    (NF.execute_sherlock_search (fun _ => NF.ProbeOutcome.toolMissing)
        "test company".data).profiles.map (fun p => p.confidence) =
      List.replicate 20 (7/10 : ℚ) ∧
    (NF.execute_sherlock_search (fun _ => NF.ProbeOutcome.toolMissing)
        "test company".data).profiles.map (fun p => (p.verified, p.relevance_score)) =
      List.replicate 20 (false, (75 : Int)) :=
  ⟨by decide, by decide, by decide, by rfl, by decide⟩

/-- Claim C3 counterexample: two probe hits whose URLs differ only in the
letter case of the domain are both materialized — `process_results`
compares raw URL strings, so the result has two profiles, not one. -/
theorem c3_case_dedup_counterexample :
    (SB.process_results twoCaseHits "x".data).map (fun p => p.profile_url) =
      ["https://instagram.com/x".data, "https://INSTAGRAM.com/x".data] ∧
    (SB.process_results twoCaseHits "x".data).length = 2 :=
  ⟨by decide, by decide⟩

/-- Claim C3 (amended): deduplication is by exact, case-sensitive URL
string equality with the first occurrence winning — the output URLs are
pairwise distinct as exact strings, but two hits whose URLs differ only by
domain letter case yield two profiles. -/
theorem c3_dedup_exact_url_amended :
    (∀ (all_results : List (List Char × List (List Char × SB.ProfileData)))
       (business_name : List Char),
      ((SB.process_results all_results business_name).map (fun p => p.profile_url)).Nodup) ∧
    (SB.process_results twoCaseHits "x".data).length = 2 :=
  ⟨process_results_url_nodup, by decide⟩

/-- Claim C4 counterexample: the serverless generator only filters
`len(u) >= 2`, so for the business name `"ab"` the candidate `"ab"` of
length 2 is returned, violating the claimed `[3, 30]` bound. -/
theorem c4_short_candidate_counterexample :
    "ab".data ∈ NF.generate_business_usernames "ab".data ∧
    ¬ 3 ≤ ("ab".data).length :=
  ⟨by decide, by decide⟩

/-- Claim C4 (amended): for every business name, the Python generator's
candidates all have length in `[3, 30]` and contain no duplicates; the
serverless generator's candidates contain no duplicates but are only
guaranteed length ≥ 2 (with no upper bound enforced). -/
theorem c4_candidate_bounds_amended (business_name : List Char) :
    (SB.generate_business_usernames business_name).all
      (fun u => 3 ≤ u.length ∧ u.length ≤ 30) = true ∧
    (SB.generate_business_usernames business_name).Nodup ∧
    (NF.generate_business_usernames business_name).all (fun u => 2 ≤ u.length) = true ∧
    (NF.generate_business_usernames business_name).Nodup := by
  refine ⟨?_, ?_, ?_, ?_⟩
  · rw [List.all_eq_true]
    intro u hu
    have h1 := List.take_subset _ _ hu
    have h2 := (List.mem_insertionSort _).1 h1
    exact (List.mem_filter.mp h2).2
  · have hd : (dedupFirst (SB.candidate_pool business_name)).Nodup := dedupFirst_nodup _
    have hf := hd.filter (fun u => decide (3 ≤ u.length ∧ u.length ≤ 30))
    have hperm := List.perm_insertionSort (SB.byAscendingScore business_name)
      ((dedupFirst (SB.candidate_pool business_name)).filter
        (fun u => decide (3 ≤ u.length ∧ u.length ≤ 30)))
    exact ((hperm.symm).nodup hf).sublist (List.take_sublist _ _)
  · rw [List.all_eq_true]
    intro u hu
    have h1 := List.take_subset _ _ hu
    have h2 := mem_of_mem_dedupFirst h1
    exact (List.mem_filter.mp h2).2
  · exact (dedupFirst_nodup _).sublist (List.take_sublist _ _)

/-- Claim C5 counterexample: neither implemented normalizer computes the
claimed CanonicalToken — the serverless one removes business words as
substrings (`"Coca Cola"` becomes `"cala"`, not `"cocacola"`), and the
Python one strips no business words at all (`"Acme Inc"` becomes
`"acmeinc"`, not `"acme"`). -/
theorem c5_canonical_token_counterexample :
    NF.base "Coca Cola".data ≠ specCanonicalToken "Coca Cola".data ∧
    SB.clean_name "Acme Inc".data ≠ specCanonicalToken "Acme Inc".data :=
  ⟨by decide, by decide⟩

/-- Claim C5 (amended): the serverless normalizer lowercases, removes every
substring occurrence of inc, llc, ltd, corp, company, co, group, agency in
that fixed order (trimming whitespace after each removal) and keeps only
alphanumeric characters, so `"Coca Cola"` normalizes to `"cala"`; the
Python normalizer lowercases and keeps only `[a-z0-9]` without stripping
any business word, so `"Acme Inc"` normalizes to `"acmeinc"`; both outputs
always consist of alphanumeric characters only. -/
theorem c5_normalizer_amended :
    NF.base "Coca Cola".data = "cala".data ∧
    SB.clean_name "Acme Inc".data = "acmeinc".data ∧
    (∀ business_name : List Char, (NF.base business_name).all isAsciiAlnum = true) ∧
    (∀ business_name : List Char, (SB.clean_name business_name).all isAsciiAlnum = true) := by
  refine ⟨by decide, by decide, ?_, ?_⟩ <;>
  · intro business_name
    rw [List.all_eq_true]
    intro c hc
    exact (List.mem_filter.mp hc).2

/-- Claim C6 counterexample: when the canonical token is longer than 20
characters (here 21 `a`s), an exact-match linkedin profile scores
100 + 30 − 10 = 120, not ≥ 130. -/
theorem c6_exact_linkedin_counterexample :
    List.replicate 21 'a' = SB.clean_name (List.replicate 21 'a') ∧
    SB.calculate_relevance (List.replicate 21 'a') (List.replicate 21 'a')
      "linkedin".data = 120 ∧
    ¬ 130 ≤ SB.calculate_relevance (List.replicate 21 'a') (List.replicate 21 'a')
      "linkedin".data :=
  ⟨by decide, by decide, by decide⟩

/-- Claim C6 (amended): a profile whose source username equals the
canonical token exactly, on platform linkedin, scores at least 120 —
exactly 130 when the username is at most 20 characters (the length penalty
costs 10 otherwise) — and its derived confidence
`min(0.9, score/100)` is 0.9 in every case. -/
theorem c6_exact_linkedin_amended (business_name username : List Char)
    (h : username = SB.clean_name business_name) :
    120 ≤ SB.calculate_relevance username business_name "linkedin".data ∧
    (username.length ≤ 20 →
      SB.calculate_relevance username business_name "linkedin".data = 130) ∧
    min (9/10 : ℚ)
      ((SB.calculate_relevance username business_name "linkedin".data : ℚ) / 100) = 9/10 := by
  subst h
  have hpp : SB.platform_priority "linkedin".data = 30 := rfl
  by_cases hlen : 20 < (SB.clean_name business_name).length
  · have hscore : SB.calculate_relevance (SB.clean_name business_name) business_name
        "linkedin".data = 120 := by
      unfold SB.calculate_relevance
      rw [hpp, if_pos rfl, if_pos hlen]
      decide
    refine ⟨by rw [hscore], fun h20 => absurd hlen (by omega), ?_⟩
    rw [hscore, min_eq_left (by push_cast; norm_num)]
  · have hscore : SB.calculate_relevance (SB.clean_name business_name) business_name
        "linkedin".data = 130 := by
      unfold SB.calculate_relevance
      rw [hpp, if_pos rfl, if_neg hlen]
      decide
    refine ⟨by rw [hscore]; norm_num, fun _ => hscore, ?_⟩
    rw [hscore, min_eq_left (by push_cast; norm_num)]

/-- Claim C6 witness: for the business name `"Acme"` the canonical token is
`"acme"`, and the amended bounds hold at that concrete input. -/
theorem c6_exact_linkedin_witness :
    "acme".data = SB.clean_name "Acme".data ∧
    (120 ≤ SB.calculate_relevance "acme".data "Acme".data "linkedin".data ∧
     (("acme".data).length ≤ 20 →
       SB.calculate_relevance "acme".data "Acme".data "linkedin".data = 130) ∧
     min (9/10 : ℚ)
       ((SB.calculate_relevance "acme".data "Acme".data "linkedin".data : ℚ) / 100) = 9/10) :=
  ⟨by decide, c6_exact_linkedin_amended "Acme".data "acme".data (by decide)⟩

/-- Claim C7: for every input, `process_results` returns at most 20
profiles, sorted non-increasingly by relevance score. -/
theorem c7_rank_bounded_sorted
    (all_results : List (List Char × List (List Char × SB.ProfileData)))
    (business_name : List Char) :
    (SB.process_results all_results business_name).length ≤ 20 ∧
    (SB.process_results all_results business_name).Pairwise
      (fun a b => b.relevance_score ≤ a.relevance_score) := by
  unfold SB.process_results
  constructor
  · exact List.length_take_le _ _
  · have hs : List.Sorted SB.byDescendingScore
        (List.insertionSort SB.byDescendingScore
          (SB.materialize business_name (SB.flatten_results all_results) [])) :=
      List.sorted_insertionSort _ _
    exact hs.sublist (List.take_sublist _ _)

/-- Claim C8: a probe failure for one username never aborts the search —
in the serverless function the result is always the per-username
contributions concatenated in order (failures contribute the deterministic
fallback profiles, a non-zero exit contributes nothing) truncated to 20;
in the Python module the search always reports success and processes
exactly the non-empty probe results, failed usernames contributing zero
hits. -/
theorem c8_probe_failure_isolated
    (probe : List Char → NF.ProbeOutcome) (pprobe : List Char → SB.ProbeOutcome)
    (business_name : List Char) :
    (NF.execute_sherlock_search probe business_name).profiles =
      ((NF.generate_business_usernames business_name).flatMap
        (fun u => NF.username_contribution probe u business_name)).take 20 ∧
    (SB.search_business_profiles pprobe business_name).success = true ∧
    (SB.search_business_profiles pprobe business_name).profiles =
      SB.process_results
        ((SB.generate_business_usernames business_name).flatMap (fun u =>
          if SB.sherlock_search pprobe u ≠ [] then [(u, SB.sherlock_search pprobe u)] else []))
        business_name := by
  refine ⟨?_, ?_, ?_⟩
  · simp only [NF.execute_sherlock_search]
    rw [sherlock_loop_eq]
    simp
  · simp only [SB.search_business_profiles]
  · simp only [SB.search_business_profiles]
    rw [search_loop_eq]
    simp

/-- Claim C9: the username generators are deterministic — identical input
strings produce identical candidate lists, elementwise and in order. -/
theorem c9_generate_deterministic (s t : List Char) (h : s = t) :
    SB.generate_business_usernames s = SB.generate_business_usernames t ∧
    NF.generate_business_usernames s = NF.generate_business_usernames t := by
  subst h
  exact ⟨rfl, rfl⟩

/-- Claim C9 witness: determinism applied to the concrete input
`"Acme Inc"`. -/
theorem c9_generate_deterministic_witness :
    SB.generate_business_usernames "Acme Inc".data =
      SB.generate_business_usernames "Acme Inc".data ∧
    NF.generate_business_usernames "Acme Inc".data =
      NF.generate_business_usernames "Acme Inc".data :=
  c9_generate_deterministic "Acme Inc".data "Acme Inc".data rfl

/-- Claim C10 (code bug in the source): the cache read does not just skip
the expiry check — it never serves anything.  The select chain of
`get_cached_result` is never executed (`.execute()` is missing), so
`result.data` raises `AttributeError`, the blanket `except` swallows it,
and the function returns `None` with the store untouched for every store,
time and query; in particular a stored row that matches the lookup keys
and whose `expires_at` (0) has long passed at `now = 99999999` is not
returned as a hit and its hit count is never incremented, although the
function's own (dead) hit path is written to return exactly that row with
`hit_count + 1` without ever reading `expires_at`. -/
theorem c10_cache_lookup_dead :
    (∀ (db : List NF.CacheRecord) (now : Int) (query platform : List Char),
      NF.get_cached_result db now query platform = (none, db)) ∧
    ([sampleCacheRecord].filter (NF.cacheMatch
        (NF.generate_query_hash "Acme".data "sherlock_osint".data) "sherlock_osint".data) =
      [sampleCacheRecord]) ∧
    sampleCacheRecord.expires_at < 99999999 ∧
    (NF.get_cached_result [sampleCacheRecord] 99999999 "Acme".data "sherlock_osint".data).1 =
      none :=
  ⟨fun _ _ _ _ => rfl, by decide, by decide, rfl⟩
